import Mathlib

/-!
Shallow embedding of the tatoebatools parallel-corpus core
(`tatoebatools/parallel_corpus.py` and `tatoebatools/jpn_indices.py`).

File contents are modelled as explicit values (a table's backing file is
`Option (List String)`: `none` when the file cannot be opened, `some lines`
otherwise).  Python exceptions are modelled by `Option` results or explicit
Boolean fault flags; the Python `csv` module's tab-delimited, backslash-escaped
reading is modelled directly on character lists.  Collaborator classes of the
repository that are not part of the two source files (`Links`,
`SentencesDetailed`, `Tatoeba`, `Version`, `lazy_property`) are modelled from
the specification and marked as such in their doc comments.
-/

namespace Tatoebatools

/-- A version stamp of a downloaded data file.  The Python code compares
versions by their `date()` component only, so the model keeps a `date`
component and a finer `time` component that the comparison ignores. -/
structure Version where
  date : Nat
  time : Nat
deriving DecidableEq

/-! ## The csv reading path used by `JpnIndices.__iter__`

`csv.DictReader(f, delimiter="\t", escapechar="\\", fieldnames=[...])`:
each line is split at unescaped tab characters; a backslash removes the
special meaning of the following character and is itself dropped. -/

/-- Split a line (as a character list) into tab-separated fields with
backslash as the escape character, as the `csv` reader configured in
`JpnIndices.__iter__` does.  `acc` holds the reversed characters of the
field currently being read. -/
def splitFields (acc : List Char) : List Char → List (List Char)
  | [] => [acc.reverse]
  | c :: rest =>
      if c = Char.ofNat 92 then
        match rest with
        | [] => [acc.reverse]
        | d :: rest2 => splitFields (d :: acc) rest2
      else if c = Char.ofNat 9 then
        acc.reverse :: splitFields [] rest
      else
        splitFields (c :: acc) rest

/-- Strip leading and trailing whitespace, as Python `int()` does with its
string argument. -/
def pyStrip (cs : List Char) : List Char :=
  ((cs.dropWhile Char.isWhitespace).reverse.dropWhile Char.isWhitespace).reverse

/-- Python `int(s)` on a decimal string: optional surrounding whitespace,
optional sign, then decimal digits; any other shape raises `ValueError`,
modelled as `none`. -/
def pyInt (s : String) : Option Int :=
  let t := pyStrip s.toList
  let signDigits : Int × List Char :=
    match t with
    | c :: rest =>
        if c = Char.ofNat 45 then (-1, rest)
        else if c = Char.ofNat 43 then (1, rest)
        else (1, t)
    | [] => (1, t)
  if signDigits.2 ≠ [] ∧ signDigits.2.all Char.isDigit then
    some (signDigits.1 * (signDigits.2.foldl (fun n c => 10 * n + (c.toNat - 48)) (0 : Nat) : Int))
  else
    none

/-- One entry of the Japanese indices table (`JpnIndex` in
`jpn_indices.py`).  The constructor stores the raw string fields; the
accessors convert on demand.  A field is `none` when the csv row was too
short and `DictReader` filled it with its `restval` of `None`. -/
structure JpnIndex where
  _sid : Option String
  _mid : Option String
  _txt : Option String
deriving DecidableEq

/-- Accessor `JpnIndex.sentence_id`, i.e. `int(self._sid)`.  `none` models the
`TypeError`/`ValueError` raised when the raw field is `None` or not a
decimal string. -/
def JpnIndex.sentence_id (j : JpnIndex) : Option Int :=
  j._sid.bind pyInt

/-- Accessor `JpnIndex.meaning_id`, i.e. `int(self._mid)`. -/
def JpnIndex.meaning_id (j : JpnIndex) : Option Int :=
  j._mid.bind pyInt

/-- Accessor `JpnIndex.text`, returning the raw text field. -/
def JpnIndex.text (j : JpnIndex) : Option String :=
  j._txt

/-- The fixed table name `JpnIndices._table`. -/
def JpnIndices.table : String := "jpn_indices"

/-- The fixed file name `JpnIndices._filename`. -/
def JpnIndices.filename : String := "jpn_" ++ JpnIndices.table ++ ".tsv"

/-- The warning message logged by `JpnIndices.__iter__` when the backing
file cannot be opened. -/
def jpnWarningMsg : String :=
  "no data locally available for the \x27" ++ JpnIndices.table ++ "\x27 table."

/-- Parse one line of the jpn_indices file into a `JpnIndex`, as the body
of the `for row in rows` loop does: the csv reader splits the line, the
`DictReader` zips the fields with the fieldnames `sentence_id`,
`meaning_id`, `text` (missing trailing fields become `None`), and the
record constructor stores them.  Rows with more than three fields (which
would make `JpnIndex(**row)` raise) do not occur in the claims and are
modelled by ignoring the extra fields. -/
def parseJpnRow (line : String) : JpnIndex :=
  let fields := (splitFields [] line.toList).map (fun cs => String.mk cs)
  { _sid := fields[0]?, _mid := fields[1]?, _txt := fields[2]? }

/-- Method `JpnIndices.__iter__`: open the backing file and yield one `JpnIndex`
per row; if the file cannot be opened (`OSError`, modelled by `none`),
catch the error, log a warning naming the table, and yield nothing.  The
result is the yielded records together with the warning log; returning a
value at all models that no exception propagates to the caller. -/
def JpnIndices.iter (file : Option (List String)) : List JpnIndex × List String :=
  match file with
  | some lines => (lines.map parseJpnRow, [])
  | none => ([], [jpnWarningMsg])

/-! ## The lazily cached version lookup of `JpnIndices.version` -/

/-- An acquire/release event on the shared version registry, produced by
entering and leaving the `with Version() as vs:` block. -/
inductive RegEvent where
  | acquire
  | release
deriving DecidableEq

/-- Modelled from the spec: the shared version registry (the `Version`
context manager of `tatoebatools/version.py`, which is not among the
source files): a scoped mapping from filename to version value; absence
of a key means the data is not locally present and the lookup yields
`None`. -/
structure VersionRegistry where
  entries : List (String × Version)
deriving DecidableEq

/-- Look a filename up in the registry; `none` when absent. -/
def VersionRegistry.find (r : VersionRegistry) (fn : String) : Option Version :=
  r.entries.lookup fn

/-- The memoisation state of one `JpnIndices` instance: `none` before the
`version` property has ever been read, `some v` after the first read
cached the result `v`. -/
structure JpnIndicesState where
  versionCache : Option (Option Version)
deriving DecidableEq

/-- Modelled from the spec: `JpnIndices.version` under the `lazy_property`
decorator of `tatoebatools/utils.py` (not among the source files): on
first access, acquire the registry, look up the instance's filename,
release the registry, and cache the result; on later accesses return the
cached value without touching the registry.  Returns the value, the new
instance state, and the registry events this access produced. -/
def JpnIndices.versionAccess (reg : VersionRegistry) (st : JpnIndicesState) :
    Option Version × JpnIndicesState × List RegEvent :=
  match st.versionCache with
  | some v => (v, st, [])
  | none =>
      let v := reg.find JpnIndices.filename
      (v, ⟨some v⟩, [RegEvent.acquire, RegEvent.release])

/-! ## The parallel corpus -/

/-- One record of the links table: `lk.sentence_id` is the source-sentence
identifier and `lk.translation_id` the target-sentence identifier. -/
structure LinkRecord where
  sentence_id : Nat
  translation_id : Nat
deriving DecidableEq

/-- The external state a `ParallelCorpus` reads: the two language codes it
was built for, the versions the registry reports for the three tables,
the records of the links file (in file order), and the rows of the two
sentence files as identifier/sentence pairs. -/
structure Env where
  src_lg : String
  tgt_lg : String
  linksVersion : Option Version
  srcVersion : Option Version
  tgtVersion : Option Version
  linkRecords : List LinkRecord
  srcRows : List (Nat × String)
  tgtRows : List (Nat × String)
deriving DecidableEq

/-- Modelled from the spec: `Links.ids` (in `tatoebatools/links.py`, not
among the source files): the pair of the sets of all distinct source
identifiers and all distinct target identifiers appearing across the link
records, computed in one pass. -/
def Links.ids (records : List LinkRecord) : List Nat × List Nat :=
  ((records.map LinkRecord.sentence_id).dedup,
   (records.map LinkRecord.translation_id).dedup)

/-- Modelled from the spec: `SentencesDetailed.get(ids, verbose)` (in
`tatoebatools/sentences_detailed.py`, not among the source files): a
mapping holding exactly the requested identifiers that are present in the
backing file; the `verbose` flag has no effect on the contents. -/
def SentencesDetailed.get (rows : List (Nat × String)) (ids : List Nat)
    (_vb : Bool) : List (Nat × String) :=
  rows.filter (fun r => ids.contains r.1)

/-- The error message logged by `ParallelCorpus._load` when a data file is
missing (spelling kept from the source). -/
def missingDataMsg (src tgt : String) : String :=
  src ++ "-" ++ tgt ++ " parralel corpus: missing data file(s). please update your data."

/-- The error message logged by `ParallelCorpus._load` when the versions
differ (spelling kept from the source). -/
def versionsDiferMsg (src tgt : String) : String :=
  src ++ "-" ++ tgt ++ " parralel corpus: data files\x27 versions difer. please update your data."

/-- The state `ParallelCorpus._load` leaves behind: the two loaded
identifier-to-sentence maps (both empty on the degraded paths, matching
the `{}` initialisation in `__init__`) and the error log. -/
structure CorpusState where
  sentences : List (Nat × String)
  translations : List (Nat × String)
  errorLog : List String
deriving DecidableEq

/-- Method `ParallelCorpus._load`: if any of the three versions is absent, log the
missing-data error and leave both maps empty; else if the three version
dates are not all equal, log the version-mismatch error and leave both
maps empty; else bound the identifiers by `Links.ids` and fill the two
maps via `SentencesDetailed.get`.  Total: construction raises no
exception on any path. -/
def ParallelCorpus.load (e : Env) (vb : Bool) : CorpusState :=
  match e.linksVersion, e.srcVersion, e.tgtVersion with
  | some lv, some sv, some tv =>
      if lv.date = sv.date ∧ sv.date = tv.date then
        let ids := Links.ids e.linkRecords
        { sentences := SentencesDetailed.get e.srcRows ids.1 vb
          translations := SentencesDetailed.get e.tgtRows ids.2 vb
          errorLog := [] }
      else
        { sentences := [], translations := []
          errorLog := [versionsDiferMsg e.src_lg e.tgt_lg] }
  | _, _, _ =>
      { sentences := [], translations := []
        errorLog := [missingDataMsg e.src_lg e.tgt_lg] }

/-- The observable outcome of running `ParallelCorpus.__iter__` to
exhaustion: the pairs yielded before any fault, whether a `KeyError`
was raised by an identifier lookup, and whether the links table was
opened and replayed at all. -/
structure IterResult where
  pairs : List (String × String)
  keyError : Bool
  linksOpened : Bool
deriving DecidableEq

/-- The loop body of `ParallelCorpus.__iter__`: replay the link records in
file order; for each, look both identifiers up in the two maps and yield
the pair; a failed lookup is a `KeyError` that aborts the iteration at
that record (the source sentence is looked up first, then the
translation, but both happen before the yield). -/
def replayLinks (sentences translations : List (Nat × String)) :
    List LinkRecord → List (String × String) × Bool
  | [] => ([], false)
  | lk :: rest =>
      match sentences.lookup lk.sentence_id, translations.lookup lk.translation_id with
      | some s, some t =>
          let r := replayLinks sentences translations rest
          ((s, t) :: r.1, r.2)
      | _, _ => ([], true)

/-- Method `ParallelCorpus.__iter__` given the instance state left by `_load`:
if both maps are non-empty (`if self._sentences and self._translations:`),
open the links table and replay it; otherwise yield nothing without
touching the links table. -/
def ParallelCorpus.iterFrom (sentences translations : List (Nat × String))
    (links : List LinkRecord) : IterResult :=
  if !sentences.isEmpty && !translations.isEmpty then
    { pairs := (replayLinks sentences translations links).1
      keyError := (replayLinks sentences translations links).2
      linksOpened := true }
  else
    { pairs := [], keyError := false, linksOpened := false }

/-- Constructing a `ParallelCorpus` over environment `e` and then
iterating it: `_load` followed by `__iter__` (which re-opens the links
table of the same environment). -/
def ParallelCorpus.iter (e : Env) (vb : Bool) : IterResult :=
  ParallelCorpus.iterFrom (ParallelCorpus.load e vb).sentences
    (ParallelCorpus.load e vb).translations e.linkRecords

/-- The arguments of the single `Tatoeba().update(tables_to_update,
langs_to_update, verbose=False)` call made by `ParallelCorpus._update`. -/
structure UpdateCall where
  tables : Finset String
  langs : Finset String
  verbose : Bool
deriving DecidableEq

/-- Method `ParallelCorpus._update`: if `update` was requested, mark both table
names and both language codes; otherwise mark only what is locally
absent (missing source-sentence version, missing target-sentence
version, missing links version — the last adds both language codes).
The `Tatoeba().update` call is always made with `verbose=False`; the
instance's verbose flag `_vb` is not consulted. -/
def ParallelCorpus.update (e : Env) (_vb : Bool) (upd : Bool) : UpdateCall :=
  if upd then
    { tables := {"sentences_detailed", "links"}
      langs := {e.src_lg, e.tgt_lg}
      verbose := false }
  else
    let p1 : Finset String × Finset String :=
      if e.srcVersion.isNone then ({"sentences_detailed"}, {e.src_lg}) else (∅, ∅)
    let p2 : Finset String × Finset String :=
      if e.tgtVersion.isNone then (insert "sentences_detailed" p1.1, insert e.tgt_lg p1.2) else p1
    let p3 : Finset String × Finset String :=
      if e.linksVersion.isNone then (insert "links" p2.1, {e.src_lg, e.tgt_lg} ∪ p2.2) else p2
    { tables := p3.1, langs := p3.2, verbose := false }

/-- Holds iff all three table versions are present
(no `not tbl.version` in `_load`). -/
def allVersionsPresentB (e : Env) : Bool :=
  e.linksVersion.isSome && e.srcVersion.isSome && e.tgtVersion.isSome

/-- Holds iff all three table versions are present and their dates are
all equal — the condition under which `_load` fills the maps. -/
def versionsConsistentB (e : Env) : Bool :=
  match e.linksVersion, e.srcVersion, e.tgtVersion with
  | some lv, some sv, some tv => lv.date = sv.date && sv.date = tv.date
  | _, _, _ => false

/-- Holds iff both endpoint identifiers of the link record are present in
the respective loaded maps. -/
def linkEndpointsPresent (sentences translations : List (Nat × String))
    (lk : LinkRecord) : Bool :=
  (sentences.lookup lk.sentence_id).isSome
    && (translations.lookup lk.translation_id).isSome

/-! ## Helper lemmas -/

/-- When every link record's endpoints are present in the maps, the replay
yields one pair per record and raises no lookup fault. -/
theorem replayLinks_all_present (s t : List (Nat × String)) (L : List LinkRecord)
    (h : ∀ lk ∈ L, linkEndpointsPresent s t lk = true) :
    (replayLinks s t L).1.length = L.length ∧ (replayLinks s t L).2 = false := by
  induction L with
  | nil => simp [replayLinks]
  | cons lk rest ih =>
      have h1 := h lk (List.mem_cons_self lk rest)
      simp only [linkEndpointsPresent, Bool.and_eq_true, Option.isSome_iff_exists] at h1
      obtain ⟨⟨a, ha⟩, b, hb⟩ := h1
      have hr := ih (fun x hx => h x (List.mem_cons_of_mem _ hx))
      simp [replayLinks, ha, hb, hr.1, hr.2]

/-- A lookup over a list without the key among its first components is
`none`. -/
theorem lookup_eq_none_of_not_mem_keys (a : String) (l : List (String × Version))
    (h : a ∉ l.map Prod.fst) : List.lookup a l = none := by
  induction l with
  | nil => simp
  | cons p rest ih =>
      simp only [List.map_cons, List.mem_cons] at h
      push_neg at h
      have hne : (a == p.1) = false := by
        simp [beq_iff_eq]
        exact h.1
      simp [List.lookup, hne, ih h.2]

/-! ## Claim theorems -/

/-- C5: for a table whose backing file cannot be opened (here the
`JpnIndices` table, the one table implemented in the source files),
iterating its records yields the empty sequence, logs a warning that names
the table, and no exception propagates (the iterator returns an ordinary
value). -/
theorem jpnIndices_missing_file_soft_fail :
    (JpnIndices.iter none).1 = []
  ∧ (JpnIndices.iter none).2 = [jpnWarningMsg]
  ∧ ∃ a b : String, jpnWarningMsg = a ++ (JpnIndices.table ++ b) := by
  refine ⟨rfl, rfl, "no data locally available for the \x27", "\x27 table.", ?_⟩
  rfl

/-- C6: the `version` value of a `JpnIndices` instance is computed once per
instance — the first access looks the table\x27s filename up in the version
registry under a scoped acquire/release, any later access returns the
cached first result without touching the registry — and it is `none`
whenever the filename is absent from the registry. -/
theorem jpnIndices_version_lazy_registry (reg : VersionRegistry) :
    (JpnIndices.versionAccess reg ⟨none⟩).1 = reg.find JpnIndices.filename
  ∧ (JpnIndices.versionAccess reg ⟨none⟩).2.2 = [RegEvent.acquire, RegEvent.release]
  ∧ JpnIndices.versionAccess reg (JpnIndices.versionAccess reg ⟨none⟩).2.1
      = ((JpnIndices.versionAccess reg ⟨none⟩).1,
         (JpnIndices.versionAccess reg ⟨none⟩).2.1, [])
  ∧ (JpnIndices.filename ∉ reg.entries.map Prod.fst →
      (JpnIndices.versionAccess reg ⟨none⟩).1 = none) :=
  ⟨rfl, rfl, rfl, fun h => lookup_eq_none_of_not_mem_keys _ _ h⟩

/-- Witness for C6 at the empty registry, whose key list contains no
filename at all. -/
theorem jpnIndices_version_lazy_registry_witness :
    (JpnIndices.versionAccess ⟨[]⟩ ⟨none⟩).1 = VersionRegistry.find ⟨[]⟩ JpnIndices.filename
  ∧ (JpnIndices.versionAccess ⟨[]⟩ ⟨none⟩).2.2 = [RegEvent.acquire, RegEvent.release]
  ∧ JpnIndices.versionAccess ⟨[]⟩ (JpnIndices.versionAccess ⟨[]⟩ ⟨none⟩).2.1
      = ((JpnIndices.versionAccess ⟨[]⟩ ⟨none⟩).1,
         (JpnIndices.versionAccess ⟨[]⟩ ⟨none⟩).2.1, [])
  ∧ (JpnIndices.filename ∉ (VersionRegistry.entries ⟨[]⟩).map Prod.fst →
      (JpnIndices.versionAccess ⟨[]⟩ ⟨none⟩).1 = none) :=
  jpnIndices_version_lazy_registry ⟨[]⟩

/-- C7: parsing the single line `7\t42\tハロー` through the Japanese-index
record path yields a record whose `sentence_id` accessor returns the
integer 7, whose `meaning_id` accessor returns the integer 42, and whose
`text` accessor returns the string `ハロー`. -/
theorem jpnIndex_parse_roundtrip :
    ((JpnIndices.iter (some ["7\t42\tハロー"])).1.map
      (fun j => (j.sentence_id, j.meaning_id, j.text)))
      = [(some 7, some 42, some "ハロー")] := by
  decide

/-- C8: for a link table with exactly the records (1,10) and (2,11), a
source map sending 1 to A and 2 to B, and a target map sending 10 to X
and 11 to Y, iteration yields exactly the pairs (A, X) then (B, Y), in
link-file order, with no lookup fault. -/
theorem parallelCorpus_two_link_scenario :
    ParallelCorpus.iterFrom [(1, "A"), (2, "B")] [(10, "X"), (11, "Y")]
      [⟨1, 10⟩, ⟨2, 11⟩]
      = { pairs := [("A", "X"), ("B", "Y")], keyError := false, linksOpened := true } := by
  rfl

/-- C9: a state in which both loaded maps are non-empty and the link table
holds a record (the second one, with source identifier 2) whose source
identifier is absent from the source map: iteration raises a `KeyError`
at that record — it yields the one preceding pair and does not yield the
third record, which would have matched had the faulty record been
skipped. -/
theorem parallelCorpus_lookup_fault :
    ([(1, "A")] : List (Nat × String)) ≠ []
  ∧ ([(10, "X")] : List (Nat × String)) ≠ []
  ∧ ([(1, "A")] : List (Nat × String)).lookup 2 = none
  ∧ ParallelCorpus.iterFrom [(1, "A")] [(10, "X")]
      [⟨1, 10⟩, ⟨2, 10⟩, ⟨1, 10⟩]
      = { pairs := [("A", "X")], keyError := true, linksOpened := true } := by
  refine ⟨by simp, by simp, rfl, rfl⟩

/-- C10: whenever either loaded sentence map is empty, iteration yields
zero pairs, raises nothing, and never opens or replays the link table. -/
theorem parallelCorpus_empty_map_no_pairs (sentences translations : List (Nat × String))
    (links : List LinkRecord) (h : sentences = [] ∨ translations = []) :
    ParallelCorpus.iterFrom sentences translations links
      = { pairs := [], keyError := false, linksOpened := false } := by
  rcases h with h | h <;> subst h <;> simp [ParallelCorpus.iterFrom]

/-- Witness for C10: an empty source map next to a non-empty target map
and a non-empty link table. -/
theorem parallelCorpus_empty_map_no_pairs_witness :
    ParallelCorpus.iterFrom [] [(10, "X")] [⟨1, 10⟩]
      = { pairs := [], keyError := false, linksOpened := false } :=
  parallelCorpus_empty_map_no_pairs [] [(10, "X")] [⟨1, 10⟩] (Or.inl rfl)

/-- C4: with `update=True`, the update collaborator is invoked with the
table-name set containing both `sentences_detailed` and `links` and the
language-code set containing both language codes, and the invocation
carries `verbose=False` regardless of the instance\x27s verbose flag. -/
theorem parallelCorpus_update_forced (e : Env) (vb : Bool) :
    (ParallelCorpus.update e vb true).tables = {"sentences_detailed", "links"}
  ∧ (ParallelCorpus.update e vb true).langs = {e.src_lg, e.tgt_lg}
  ∧ (ParallelCorpus.update e vb true).verbose = false :=
  ⟨rfl, rfl, rfl⟩

/-- C3: with `update=False`, the table-name set and language-code set
passed to the update collaborator are exactly the union of the
obligations of the tables whose local version is absent — the
source-language sentence table contributes `sentences_detailed` and the
source code, the target-language sentence table contributes
`sentences_detailed` and the target code, the link table contributes
`links` and both codes — and in particular both sets are empty when all
three versions are present. -/
theorem parallelCorpus_update_lazy_obligations (e : Env) (vb : Bool) :
    (ParallelCorpus.update e vb false).tables =
      ((if e.srcVersion.isNone then {"sentences_detailed"} else ∅)
        ∪ (if e.tgtVersion.isNone then {"sentences_detailed"} else ∅)
        ∪ (if e.linksVersion.isNone then {"links"} else ∅))
  ∧ (ParallelCorpus.update e vb false).langs =
      ((if e.srcVersion.isNone then {e.src_lg} else ∅)
        ∪ (if e.tgtVersion.isNone then {e.tgt_lg} else ∅)
        ∪ (if e.linksVersion.isNone then ({e.src_lg, e.tgt_lg} : Finset String) else ∅))
  ∧ (ParallelCorpus.update e vb false).verbose = false
  ∧ (e.srcVersion.isSome ∧ e.tgtVersion.isSome ∧ e.linksVersion.isSome →
      (ParallelCorpus.update e vb false).tables = ∅
      ∧ (ParallelCorpus.update e vb false).langs = ∅) := by
  obtain ⟨slg, tlg, lv, sv, tv, L, SR, TR⟩ := e
  cases lv <;> cases sv <;> cases tv <;>
    refine ⟨?_, ?_, rfl, ?_⟩ <;>
    simp [ParallelCorpus.update] <;>
    (ext x; simp; tauto)

/-- Witness for C3 in the all-present state: the collaborator receives
empty table and language sets. -/
theorem parallelCorpus_update_lazy_obligations_witness :
    (ParallelCorpus.update
        ⟨"eng", "fra", some ⟨1, 0⟩, some ⟨1, 0⟩, some ⟨1, 0⟩, [], [], []⟩ true false).tables =
      ((if (some (⟨1, 0⟩ : Version)).isNone then {"sentences_detailed"} else ∅)
        ∪ (if (some (⟨1, 0⟩ : Version)).isNone then {"sentences_detailed"} else ∅)
        ∪ (if (some (⟨1, 0⟩ : Version)).isNone then {"links"} else ∅))
  ∧ (ParallelCorpus.update
        ⟨"eng", "fra", some ⟨1, 0⟩, some ⟨1, 0⟩, some ⟨1, 0⟩, [], [], []⟩ true false).langs =
      ((if (some (⟨1, 0⟩ : Version)).isNone then {"eng"} else ∅)
        ∪ (if (some (⟨1, 0⟩ : Version)).isNone then {"fra"} else ∅)
        ∪ (if (some (⟨1, 0⟩ : Version)).isNone then ({"eng", "fra"} : Finset String) else ∅))
  ∧ (ParallelCorpus.update
        ⟨"eng", "fra", some ⟨1, 0⟩, some ⟨1, 0⟩, some ⟨1, 0⟩, [], [], []⟩ true false).verbose = false
  ∧ ((some (⟨1, 0⟩ : Version)).isSome ∧ (some (⟨1, 0⟩ : Version)).isSome
        ∧ (some (⟨1, 0⟩ : Version)).isSome →
      (ParallelCorpus.update
          ⟨"eng", "fra", some ⟨1, 0⟩, some ⟨1, 0⟩, some ⟨1, 0⟩, [], [], []⟩ true false).tables = ∅
      ∧ (ParallelCorpus.update
          ⟨"eng", "fra", some ⟨1, 0⟩, some ⟨1, 0⟩, some ⟨1, 0⟩, [], [], []⟩ true false).langs = ∅) :=
  parallelCorpus_update_lazy_obligations
    ⟨"eng", "fra", some ⟨1, 0⟩, some ⟨1, 0⟩, some ⟨1, 0⟩, [], [], []⟩ true

/-- C2: iteration yields at least one pair only if all three versions are
present and their dates are all equal; when any version is absent the
instance yields zero pairs without opening the link table and logs the
missing-data error; when all are present but the dates differ it yields
zero pairs and logs the version-mismatch error; the model is a total
function on every such environment, so construction raises no
exception. -/
theorem parallelCorpus_version_guard (e : Env) (vb : Bool) :
    ((ParallelCorpus.iter e vb).pairs ≠ [] → versionsConsistentB e = true)
  ∧ (allVersionsPresentB e = false →
      ParallelCorpus.iter e vb = { pairs := [], keyError := false, linksOpened := false }
      ∧ (ParallelCorpus.load e vb).errorLog = [missingDataMsg e.src_lg e.tgt_lg])
  ∧ (allVersionsPresentB e = true → versionsConsistentB e = false →
      ParallelCorpus.iter e vb = { pairs := [], keyError := false, linksOpened := false }
      ∧ (ParallelCorpus.load e vb).errorLog = [versionsDiferMsg e.src_lg e.tgt_lg]) := by
  obtain ⟨slg, tlg, lv, sv, tv, L, SR, TR⟩ := e
  cases lv <;> cases sv <;> cases tv <;>
    simp [ParallelCorpus.iter, ParallelCorpus.load, ParallelCorpus.iterFrom,
      allVersionsPresentB, versionsConsistentB]
  rename_i lkv srv tgv
  by_cases hd : lkv.date = srv.date ∧ srv.date = tgv.date
  · simp [hd]
  · simp [hd]

/-- Witness for C2 in a mismatched state: versions present but with
differing dates degrade to an empty iteration and the mismatch log
line. -/
theorem parallelCorpus_version_guard_witness :
    ((ParallelCorpus.iter
        ⟨"eng", "fra", some ⟨1, 0⟩, some ⟨2, 0⟩, some ⟨1, 0⟩, [⟨1, 10⟩], [(1, "A")], [(10, "X")]⟩
        true).pairs ≠ [] →
      versionsConsistentB
        ⟨"eng", "fra", some ⟨1, 0⟩, some ⟨2, 0⟩, some ⟨1, 0⟩, [⟨1, 10⟩], [(1, "A")], [(10, "X")]⟩
        = true)
  ∧ (allVersionsPresentB
        ⟨"eng", "fra", some ⟨1, 0⟩, some ⟨2, 0⟩, some ⟨1, 0⟩, [⟨1, 10⟩], [(1, "A")], [(10, "X")]⟩
        = false →
      ParallelCorpus.iter
          ⟨"eng", "fra", some ⟨1, 0⟩, some ⟨2, 0⟩, some ⟨1, 0⟩, [⟨1, 10⟩], [(1, "A")], [(10, "X")]⟩
          true = { pairs := [], keyError := false, linksOpened := false }
      ∧ (ParallelCorpus.load
          ⟨"eng", "fra", some ⟨1, 0⟩, some ⟨2, 0⟩, some ⟨1, 0⟩, [⟨1, 10⟩], [(1, "A")], [(10, "X")]⟩
          true).errorLog = [missingDataMsg "eng" "fra"])
  ∧ (allVersionsPresentB
        ⟨"eng", "fra", some ⟨1, 0⟩, some ⟨2, 0⟩, some ⟨1, 0⟩, [⟨1, 10⟩], [(1, "A")], [(10, "X")]⟩
        = true →
      versionsConsistentB
        ⟨"eng", "fra", some ⟨1, 0⟩, some ⟨2, 0⟩, some ⟨1, 0⟩, [⟨1, 10⟩], [(1, "A")], [(10, "X")]⟩
        = false →
      ParallelCorpus.iter
          ⟨"eng", "fra", some ⟨1, 0⟩, some ⟨2, 0⟩, some ⟨1, 0⟩, [⟨1, 10⟩], [(1, "A")], [(10, "X")]⟩
          true = { pairs := [], keyError := false, linksOpened := false }
      ∧ (ParallelCorpus.load
          ⟨"eng", "fra", some ⟨1, 0⟩, some ⟨2, 0⟩, some ⟨1, 0⟩, [⟨1, 10⟩], [(1, "A")], [(10, "X")]⟩
          true).errorLog = [versionsDiferMsg "eng" "fra"]) :=
  parallelCorpus_version_guard
    ⟨"eng", "fra", some ⟨1, 0⟩, some ⟨2, 0⟩, some ⟨1, 0⟩, [⟨1, 10⟩], [(1, "A")], [(10, "X")]⟩ true

/-- An environment with present, date-consistent versions whose link table
names a target identifier (99) that the target sentence file does not
contain. -/
def envRefuteC1 : Env :=
  { src_lg := "eng", tgt_lg := "fra"
    linksVersion := some ⟨1, 0⟩, srcVersion := some ⟨1, 5⟩, tgtVersion := some ⟨1, 9⟩
    linkRecords := [⟨1, 10⟩, ⟨2, 99⟩, ⟨3, 11⟩]
    srcRows := [(1, "A"), (2, "B"), (3, "C")]
    tgtRows := [(10, "X"), (11, "Y")] }

/-- C1 counterexample: in a present, version-consistent state the claimed
equality fails — two of the three link records have both endpoints in
the loaded maps, but iteration yields only one pair because it raises a
`KeyError` at the second record instead of skipping it. -/
theorem parallelCorpus_pair_count_counterexample :
    versionsConsistentB envRefuteC1 = true
  ∧ (envRefuteC1.linkRecords.filter
      (linkEndpointsPresent (ParallelCorpus.load envRefuteC1 true).sentences
        (ParallelCorpus.load envRefuteC1 true).translations)).length = 2
  ∧ (ParallelCorpus.iter envRefuteC1 true).pairs.length = 1
  ∧ (ParallelCorpus.iter envRefuteC1 true).pairs.length ≠
      (envRefuteC1.linkRecords.filter
        (linkEndpointsPresent (ParallelCorpus.load envRefuteC1 true).sentences
          (ParallelCorpus.load envRefuteC1 true).translations)).length
  ∧ (ParallelCorpus.iter envRefuteC1 true).keyError = true := by
  decide

/-- C1 as amended: for every environment whose three versions are present
and date-consistent, and in which every link record\x27s both endpoint
identifiers exist in the respective loaded sentence maps, the number of
pairs yielded by iteration equals the number of link records whose both
endpoints exist in the maps (all of them), and no lookup fault occurs. -/
theorem parallelCorpus_pair_count_amended (e : Env) (vb : Bool)
    (hcons : versionsConsistentB e = true)
    (hall : ∀ lk ∈ e.linkRecords,
      linkEndpointsPresent (ParallelCorpus.load e vb).sentences
        (ParallelCorpus.load e vb).translations lk = true) :
    (ParallelCorpus.iter e vb).pairs.length
      = (e.linkRecords.filter
          (linkEndpointsPresent (ParallelCorpus.load e vb).sentences
            (ParallelCorpus.load e vb).translations)).length
  ∧ (ParallelCorpus.iter e vb).keyError = false := by
  have hfilter : e.linkRecords.filter
      (linkEndpointsPresent (ParallelCorpus.load e vb).sentences
        (ParallelCorpus.load e vb).translations) = e.linkRecords :=
    List.filter_eq_self.mpr hall
  have hrep := replayLinks_all_present (ParallelCorpus.load e vb).sentences
    (ParallelCorpus.load e vb).translations e.linkRecords hall
  rw [hfilter]
  unfold ParallelCorpus.iter ParallelCorpus.iterFrom
  split
  · exact ⟨hrep.1, hrep.2⟩
  · rename_i hguard
    have hLnil : e.linkRecords = [] := by
      cases hL : e.linkRecords with
      | nil => rfl
      | cons lk rest =>
          exfalso
          have h1 := hall lk (by rw [hL]; exact List.mem_cons_self lk rest)
          simp only [linkEndpointsPresent, Bool.and_eq_true, Option.isSome_iff_exists] at h1
          obtain ⟨⟨a, ha⟩, b, hb⟩ := h1
          have hs : (ParallelCorpus.load e vb).sentences.isEmpty = false := by
            cases hsl : (ParallelCorpus.load e vb).sentences with
            | nil => rw [hsl] at ha; simp at ha
            | cons p ps => simp
          have ht : (ParallelCorpus.load e vb).translations.isEmpty = false := by
            cases htl : (ParallelCorpus.load e vb).translations with
            | nil => rw [htl] at hb; simp at hb
            | cons p ps => simp
          rw [hs, ht] at hguard
          simp at hguard
    simp [hLnil]

/-- An environment with present, date-consistent versions in which every
link record has both endpoints in the loaded maps. -/
def envWitnessC1 : Env :=
  { src_lg := "eng", tgt_lg := "fra"
    linksVersion := some ⟨3, 0⟩, srcVersion := some ⟨3, 1⟩, tgtVersion := some ⟨3, 2⟩
    linkRecords := [⟨1, 10⟩, ⟨2, 11⟩]
    srcRows := [(1, "A"), (2, "B")]
    tgtRows := [(10, "X"), (11, "Y")] }

/-- Witness for the amended C1 on a concrete consistent environment whose
link records all resolve. -/
theorem parallelCorpus_pair_count_amended_witness :
    (ParallelCorpus.iter envWitnessC1 true).pairs.length
      = (envWitnessC1.linkRecords.filter
          (linkEndpointsPresent (ParallelCorpus.load envWitnessC1 true).sentences
            (ParallelCorpus.load envWitnessC1 true).translations)).length
  ∧ (ParallelCorpus.iter envWitnessC1 true).keyError = false :=
  parallelCorpus_pair_count_amended envWitnessC1 true (by decide) (by decide)

end Tatoebatools
